import Mathlib

/-!
Verification development for the Station_Control firmware
(`Station.cpp`, single-channel variant; `RosStationCommunication.cpp`,
dual-channel variant).

The embedding is shallow: Arduino digital pins become a record of boolean
levels (`true` = HIGH, `false` = LOW), `digitalWrite` updates the record and
appends a timestamped entry to a write trace, `delay` advances a
millisecond counter, `Serial.println` appends to a log list, and
`ros_server.write` appends to an acknowledgment list.  Each C++ function is
translated into a Lean function of the same name operating on this state.
-/

/-- Digital level HIGH (Arduino constant). -/
def HIGH : Bool := true

/-- Digital level LOW (Arduino constant). -/
def LOW : Bool := false

/-- Pin assignments shared by both variants (`constexpr int` in the source). -/
def DOOR_DIRECTION_PIN : Nat := 4

def DOOR_ENABLE_PIN : Nat := 5

def PLATE_DIRECTION_PIN : Nat := 6

def PLATE_ENABLE_PIN : Nat := 7

def DOOR_PHOTO_PIN : Nat := 8

def PLATE_PHOTO_PIN : Nat := 9

def WPT_RELAY_PIN : Nat := 10

/-- Timing constants (ms) of the dual-channel variant. -/
def DOOR_TIME : Nat := 25000

def PLATE_TIME : Nat := 45000

/-- Levels of the five output pins used by the firmware
(pins 4,5,6,7 in both variants; pin 10 only in the dual-channel one). -/
structure PinState where
  pin4 : Bool
  pin5 : Bool
  pin6 : Bool
  pin7 : Bool
  pin10 : Bool
  deriving DecidableEq, Repr

/-- One recorded `digitalWrite`: (timestamp in ms, pin number, level). -/
abbrev WriteEv := Nat × Nat × Bool

/-- Machine state seen by the actuation primitives: output pin levels, the
elapsed-time counter advanced by `delay`, and the ordered trace of pin
writes. -/
structure MState where
  pins : PinState
  time : Nat
  trace : List WriteEv
  deriving DecidableEq, Repr

/-- Set the level of one output pin in the pin record. -/
def setPin (p : Nat) (lvl : Bool) (s : PinState) : PinState :=
  if p = 4 then { s with pin4 := lvl }
  else if p = 5 then { s with pin5 := lvl }
  else if p = 6 then { s with pin6 := lvl }
  else if p = 7 then { s with pin7 := lvl }
  else if p = 10 then { s with pin10 := lvl }
  else s

/-- `digitalWrite(p, lvl)`: update the pin and record the write at the
current time. -/
def digitalWrite (p : Nat) (lvl : Bool) (s : MState) : MState :=
  { s with pins := setPin p lvl s.pins, trace := s.trace ++ [(s.time, p, lvl)] }

/-- `delay(ms)`: advance elapsed time, no pin effect. -/
def delay (ms : Nat) (s : MState) : MState :=
  { s with time := s.time + ms }

/-- `StopAllMotors` (identical in both source files): disable the door
motor, then the plate motor (enable pins active-low, HIGH = disabled). -/
def StopAllMotors (s : MState) : MState :=
  digitalWrite PLATE_ENABLE_PIN HIGH (digitalWrite DOOR_ENABLE_PIN HIGH s)

/-- `CloseDoor`: direction HIGH (close), enable LOW (energize). -/
def CloseDoor (s : MState) : MState :=
  digitalWrite DOOR_ENABLE_PIN LOW (digitalWrite DOOR_DIRECTION_PIN HIGH s)

/-- `OpenDoor`: direction LOW (open), enable LOW (energize). -/
def OpenDoor (s : MState) : MState :=
  digitalWrite DOOR_ENABLE_PIN LOW (digitalWrite DOOR_DIRECTION_PIN LOW s)

/-- `RetractPlate`: direction HIGH (retract/in), enable LOW (energize). -/
def RetractPlate (s : MState) : MState :=
  digitalWrite PLATE_ENABLE_PIN LOW (digitalWrite PLATE_DIRECTION_PIN HIGH s)

/-- `ExtendPlate`: direction LOW (extend/out), enable LOW (energize). -/
def ExtendPlate (s : MState) : MState :=
  digitalWrite PLATE_ENABLE_PIN LOW (digitalWrite PLATE_DIRECTION_PIN LOW s)

/-- `TakeOffSequence` (dual-channel variant): OpenDoor, delay DOOR_TIME,
ExtendPlate, delay PLATE_TIME. -/
def TakeOffSequence (s : MState) : MState :=
  delay PLATE_TIME (ExtendPlate (delay DOOR_TIME (OpenDoor s)))

/-- `LandingSequence` (dual-channel variant): RetractPlate, delay
PLATE_TIME, CloseDoor, delay DOOR_TIME. -/
def LandingSequence (s : MState) : MState :=
  delay DOOR_TIME (CloseDoor (delay PLATE_TIME (RetractPlate s)))

/-- `EnableWirelessPower`: drive the WPT relay pin HIGH. -/
def EnableWirelessPower (s : MState) : MState :=
  digitalWrite WPT_RELAY_PIN HIGH s

/-- `DisableWirelessPower`: drive the WPT relay pin LOW. -/
def DisableWirelessPower (s : MState) : MState :=
  digitalWrite WPT_RELAY_PIN LOW s

/-!
## Dual-channel variant (`RosStationCommunication.cpp`)
-/

/-- Global state of the dual-channel firmware: machine state, the
`wirelessPowerState` flag (`int`, 0 = on, 1 = off), the `alreadyConnected`
flag, the serial log, and the bytes written back on each server channel
(`ros_server.write` appends to `rosOut`; the source contains no
`web_server.write` call, so nothing ever appends to `webOut`). -/
structure Station where
  m : MState
  wirelessPowerState : Int
  alreadyConnected : Bool
  serialLog : List String
  rosOut : List Char
  webOut : List Char
  deriving DecidableEq, Repr

/-- `switch (command)` of the ROS-client branch of `loop`
(`RosStationCommunication.cpp:89-138`): each recognized lowercase byte
logs, actuates, and acknowledges with the uppercase letter on the ROS
channel; any other byte logs "Unknown ROS command". -/
def rosDispatch (command : Char) (s : Station) : Station :=
  if command = 'a' then
    { s with serialLog := s.serialLog ++ ["ROS: Extend Plate"],
             m := ExtendPlate s.m, rosOut := s.rosOut ++ ['A'] }
  else if command = 'b' then
    { s with serialLog := s.serialLog ++ ["ROS: Retract Plate"],
             m := RetractPlate s.m, rosOut := s.rosOut ++ ['B'] }
  else if command = 'c' then
    { s with serialLog := s.serialLog ++ ["ROS: Open Door"],
             m := OpenDoor s.m, rosOut := s.rosOut ++ ['C'] }
  else if command = 'd' then
    { s with serialLog := s.serialLog ++ ["ROS: Close Door"],
             m := CloseDoor s.m, rosOut := s.rosOut ++ ['D'] }
  else if command = 'e' then
    { s with serialLog := s.serialLog ++ ["ROS: Wireless Power On"],
             wirelessPowerState := 0, rosOut := s.rosOut ++ ['E'] }
  else if command = 'f' then
    { s with serialLog := s.serialLog ++ ["ROS: Wireless Power Off"],
             wirelessPowerState := 1, rosOut := s.rosOut ++ ['F'] }
  else if command = 'z' then
    { s with serialLog := s.serialLog ++ ["ROS: Take Off Sequence"],
             m := TakeOffSequence s.m, rosOut := s.rosOut ++ ['Z'] }
  else if command = 'x' then
    { s with serialLog := s.serialLog ++ ["ROS: Landing Sequence"],
             m := LandingSequence s.m, rosOut := s.rosOut ++ ['X'] }
  else if command = 'g' then
    { s with serialLog := s.serialLog ++ ["ROS: Stop All"],
             m := StopAllMotors s.m, rosOut := s.rosOut ++ ['G'] }
  else
    { s with serialLog := s.serialLog ++ ["Unknown ROS command"] }

/-- `switch (command)` of the web-client branch of `loop`
(`RosStationCommunication.cpp:144-184`): recognized uppercase bytes log and
actuate, with no acknowledgment; any other byte logs "Unknown Web
command". -/
def webDispatch (command : Char) (s : Station) : Station :=
  if command = 'A' then
    { s with serialLog := s.serialLog ++ ["Web: Extend Plate"],
             m := ExtendPlate s.m }
  else if command = 'D' then
    { s with serialLog := s.serialLog ++ ["Web: Retract Plate"],
             m := RetractPlate s.m }
  else if command = 'B' then
    { s with serialLog := s.serialLog ++ ["Web: Open Door"],
             m := OpenDoor s.m }
  else if command = 'E' then
    { s with serialLog := s.serialLog ++ ["Web: Close Door"],
             m := CloseDoor s.m }
  else if command = 'C' then
    { s with serialLog := s.serialLog ++ ["Web: Wireless Power On"],
             wirelessPowerState := 0 }
  else if command = 'F' then
    { s with serialLog := s.serialLog ++ ["Web: Wireless Power Off"],
             wirelessPowerState := 1 }
  else if command = 'G' then
    { s with serialLog := s.serialLog ++ ["Web: Take Off Sequence"],
             m := TakeOffSequence s.m }
  else if command = 'H' then
    { s with serialLog := s.serialLog ++ ["Web: Landing Sequence"],
             m := LandingSequence s.m }
  else if command = 'I' then
    { s with serialLog := s.serialLog ++ ["Web: Stop All"],
             m := StopAllMotors s.m }
  else
    { s with serialLog := s.serialLog ++ ["Unknown Web command"] }

/-- First-connection bookkeeping at the top of the dual-channel `loop`
(lines 78-84): if `alreadyConnected` is still false, flush buffers
(no modelled effect), log, and set the flag.  The flag is set here and is
never written anywhere else in the source. -/
def connectStep (s : Station) : Station :=
  if !s.alreadyConnected then
    { s with serialLog := s.serialLog ++ ["New client connected"],
             alreadyConnected := true }
  else s

/-- Relay re-drive at the bottom of every `loop` iteration (lines 188-193):
drive the WPT relay pin from `wirelessPowerState`. -/
def relayStep (s : Station) : Station :=
  if s.wirelessPowerState = 0 then { s with m := EnableWirelessPower s.m }
  else { s with m := DisableWirelessPower s.m }

/-- One iteration of the dual-channel `loop`.  `rosClient` / `webClient`
say whether `ros_server.available()` / `web_server.available()` returned a
connected client; `rosByte` / `webByte` are the pending byte on each
channel, if any (`available() > 0` then `read()`); a byte can only be
pending on a connected client's channel, which the pattern matches encode
by requiring the client flag alongside the byte. -/
def loop (rosClient webClient : Bool) (rosByte webByte : Option Char)
    (s : Station) : Station :=
  let s :=
    if rosClient || webClient then
      let s1 := connectStep s
      let s2 := match rosClient, rosByte with
        | true, some c => rosDispatch c s1
        | _, _ => s1
      match webClient, webByte with
        | true, some c => webDispatch c s2
        | _, _ => s2
    else s
  relayStep s

/-- Startup state of the dual-channel variant after `setup()`:
`wirelessPowerState = 1` (off), `alreadyConnected = false`, motors stopped
and wireless power disabled (`StopAllMotors(); DisableWirelessPower();`).
Output pins are modelled as starting LOW before setup runs. -/
def initStation : Station :=
  let m0 : MState :=
    { pins := { pin4 := false, pin5 := false, pin6 := false,
                pin7 := false, pin10 := false },
      time := 0, trace := [] }
  { m := DisableWirelessPower (StopAllMotors m0),
    wirelessPowerState := 1, alreadyConnected := false,
    serialLog := [], rosOut := [], webOut := [] }

/-!
## Single-channel variant (`Station.cpp`)
-/

/-- Global state of the single-channel firmware: machine state and serial
log (this variant has no relay, no connection flag and writes nothing back
to the client). -/
structure SStation where
  m : MState
  serialLog : List String
  deriving DecidableEq, Repr

/-- Command handling of the single-channel `loop` (`Station.cpp:58-149`)
once a byte has been read: the two photo sensors are snapshotted once
(`isDoorClosed = digitalRead(DOOR_PHOTO_PIN) == LOW`,
`isPlateIn = digitalRead(PLATE_PHOTO_PIN) == LOW`) and the byte is
dispatched by `switch (command)`.  `doorPhoto` / `platePhoto` are the
levels `digitalRead` returns for pins 8 and 9 at that moment. -/
def stationDispatch (command : Char) (doorPhoto platePhoto : Bool)
    (s : SStation) : SStation :=
  let isDoorClosed : Bool := doorPhoto = LOW
  let isPlateIn : Bool := platePhoto = LOW
  if command = 'A' then
    let s := { s with serialLog := s.serialLog ++ ["Extend Plate"] }
    if isDoorClosed then { s with m := ExtendPlate s.m } else s
  else if command = 'D' then
    let s := { s with serialLog := s.serialLog ++ ["Retract Plate"] }
    { s with m := RetractPlate s.m }
  else if command = 'B' then
    let s := { s with serialLog := s.serialLog ++ ["Open Door"] }
    { s with m := OpenDoor s.m }
  else if command = 'E' then
    let s := { s with serialLog := s.serialLog ++ ["Close Door"] }
    if isPlateIn then { s with m := CloseDoor s.m } else s
  else if command = 'G' then
    let s := { s with serialLog := s.serialLog ++ ["Take Off Sequence"] }
    if isPlateIn then
      let s := { s with m := OpenDoor s.m }
      if isDoorClosed then { s with m := ExtendPlate s.m } else s
    else s
  else if command = 'H' then
    let s := { s with serialLog := s.serialLog ++ ["Landing Sequence"] }
    let s := { s with m := RetractPlate s.m }
    if isPlateIn then
      let s := { s with m := CloseDoor s.m }
      if isDoorClosed then { s with m := StopAllMotors s.m } else s
    else s
  else if command = 'I' then
    let s := { s with serialLog := s.serialLog ++ ["Stop All"] }
    { s with m := StopAllMotors s.m }
  else
    { s with serialLog := s.serialLog ++ ["Unknown command"] }

/-- The single-channel take-off row as the specification words it (§4.4 row
G: "OpenDoor then (if isPlateIn) ExtendPlate", inner re-check against the
pre-action snapshot).  Written only for comparison with `stationDispatch`,
whose 'G' case instead re-checks `isDoorClosed` (`Station.cpp:113`). -/
def specDispatchG (doorPhoto platePhoto : Bool) (s : SStation) : SStation :=
  let _ := doorPhoto
  let isPlateIn : Bool := platePhoto = LOW
  let s := { s with serialLog := s.serialLog ++ ["Take Off Sequence"] }
  if isPlateIn then
    let s := { s with m := OpenDoor s.m }
    if isPlateIn then { s with m := ExtendPlate s.m } else s
  else s

/-- A concrete single-channel state with every output pin HIGH, used for
concrete evaluations. -/
def sHigh : SStation :=
  { m := { pins := { pin4 := true, pin5 := true, pin6 := true,
                     pin7 := true, pin10 := true },
           time := 0, trace := [] },
    serialLog := [] }

/-!
## Theorems
-/

/-- The relay re-drive leaves `wirelessPowerState` alone, sets pin 10 from
it, and touches no other pin. -/
theorem relayStep_drives_pin10 (t : Station) :
    (((relayStep t).m.pins.pin10 = HIGH) ↔
      (relayStep t).wirelessPowerState = 0) ∧
    (relayStep t).wirelessPowerState = t.wirelessPowerState ∧
    (relayStep t).m.pins.pin4 = t.m.pins.pin4 ∧
    (relayStep t).m.pins.pin5 = t.m.pins.pin5 ∧
    (relayStep t).m.pins.pin6 = t.m.pins.pin6 ∧
    (relayStep t).m.pins.pin7 = t.m.pins.pin7 := by
  by_cases h : t.wirelessPowerState = 0 <;>
    simp [relayStep, EnableWirelessPower, DisableWirelessPower, digitalWrite,
      setPin, WPT_RELAY_PIN, HIGH, LOW, h]

/-- C3. Dual-channel variant: at the end of every `loop` iteration —
whatever the pre-state (hence for every prior command history) and whether
or not any command arrived — the WPT relay pin (pin 10) is HIGH iff
`wirelessPowerState = 0` (wireless power on). -/
theorem C3_relay_matches_flag (rc wc : Bool) (rb wb : Option Char)
    (s : Station) :
    ((loop rc wc rb wb s).m.pins.pin10 = HIGH) ↔
      (loop rc wc rb wb s).wirelessPowerState = 0 := by
  simp only [loop]
  exact (relayStep_drives_pin10 _).1

/-- C5. `TakeOffSequence` from any machine state appends exactly the four
writes of OpenDoor (door direction LOW, door enable LOW, both at the start
time) and ExtendPlate (plate direction LOW, plate enable LOW, both at
start + DOOR_TIME = start + 25000 ms), in that order and with no other
writes, and finishes PLATE_TIME = 45000 ms after the plate writes. -/
theorem C5_takeoff_sequence (s : MState) :
    (TakeOffSequence s).trace = s.trace ++
      [(s.time, DOOR_DIRECTION_PIN, LOW), (s.time, DOOR_ENABLE_PIN, LOW),
       (s.time + DOOR_TIME, PLATE_DIRECTION_PIN, LOW),
       (s.time + DOOR_TIME, PLATE_ENABLE_PIN, LOW)] ∧
    (TakeOffSequence s).time = s.time + DOOR_TIME + PLATE_TIME ∧
    DOOR_TIME = 25000 ∧ PLATE_TIME = 45000 := by
  refine ⟨?_, ?_, rfl, rfl⟩ <;>
    simp [TakeOffSequence, OpenDoor, ExtendPlate, delay, digitalWrite]

/-- C6. `LandingSequence` from any machine state appends exactly the four
writes of RetractPlate (plate direction HIGH, plate enable LOW, at the
start time) and CloseDoor (door direction HIGH, door enable LOW, at
start + PLATE_TIME = start + 45000 ms), in that order and with no other
writes, and finishes DOOR_TIME = 25000 ms after the door writes. -/
theorem C6_landing_sequence (s : MState) :
    (LandingSequence s).trace = s.trace ++
      [(s.time, PLATE_DIRECTION_PIN, HIGH), (s.time, PLATE_ENABLE_PIN, LOW),
       (s.time + PLATE_TIME, DOOR_DIRECTION_PIN, HIGH),
       (s.time + PLATE_TIME, DOOR_ENABLE_PIN, LOW)] ∧
    (LandingSequence s).time = s.time + PLATE_TIME + DOOR_TIME ∧
    PLATE_TIME = 45000 ∧ DOOR_TIME = 25000 := by
  refine ⟨?_, ?_, rfl, rfl⟩ <;>
    simp [LandingSequence, RetractPlate, CloseDoor, delay, digitalWrite]

/-- C8. `StopAllMotors` from any prior pin state sets both enable pins
(5 and 7) HIGH and leaves both direction pins (4 and 6) and the relay pin
(10) unchanged; the dispatch paths that call it ('g' on ROS, 'I' on web)
leave the `wirelessPowerState` flag unchanged. -/
theorem C8_stop_all_motors_frame (s : MState) (st : Station) :
    (StopAllMotors s).pins.pin5 = HIGH ∧
    (StopAllMotors s).pins.pin7 = HIGH ∧
    (StopAllMotors s).pins.pin4 = s.pins.pin4 ∧
    (StopAllMotors s).pins.pin6 = s.pins.pin6 ∧
    (StopAllMotors s).pins.pin10 = s.pins.pin10 ∧
    (rosDispatch 'g' st).wirelessPowerState = st.wirelessPowerState ∧
    (webDispatch 'I' st).wirelessPowerState = st.wirelessPowerState := by
  refine ⟨?_, ?_, ?_, ?_, ?_, ?_, ?_⟩ <;>
    simp [StopAllMotors, digitalWrite, setPin, rosDispatch, webDispatch,
      DOOR_ENABLE_PIN, PLATE_ENABLE_PIN]

/-- C9. Single-channel variant, command 'A': with the door photo sensor
reading HIGH (door not closed) the guard fails and no pin is written; with
the sensor reading LOW, ExtendPlate fires (plate direction pin 6 set LOW =
extend polarity, plate enable pin 7 set LOW = energized), leaving the door
pins unchanged.  Both cases hold for either plate-sensor reading. -/
theorem C9_extend_plate_guard (s : SStation) (plate : Bool) :
    (stationDispatch 'A' HIGH plate s).m = s.m ∧
    (stationDispatch 'A' LOW plate s).m.pins.pin6 = LOW ∧
    (stationDispatch 'A' LOW plate s).m.pins.pin7 = LOW ∧
    (stationDispatch 'A' LOW plate s).m.pins.pin4 = s.m.pins.pin4 ∧
    (stationDispatch 'A' LOW plate s).m.pins.pin5 = s.m.pins.pin5 := by
  refine ⟨?_, ?_, ?_, ?_, ?_⟩ <;>
    simp [stationDispatch, ExtendPlate, digitalWrite, setPin, HIGH, LOW,
      PLATE_DIRECTION_PIN, PLATE_ENABLE_PIN]

/-- C1 counterexample. With door sensor HIGH (door not closed) and plate
sensor LOW (plate in), dispatching 'G' as the claim states it would invoke
ExtendPlate (the inner re-check being `isPlateIn`, which holds), driving
the plate enable pin 7 LOW; the code's inner re-check is `isDoorClosed`,
which fails here, so pin 7 stays HIGH and the two behaviours differ. -/
theorem C1_inner_guard_counterexample :
    (stationDispatch 'G' HIGH LOW sHigh).m.pins.pin7 = HIGH ∧
    (specDispatchG HIGH LOW sHigh).m.pins.pin7 = LOW ∧
    stationDispatch 'G' HIGH LOW sHigh ≠ specDispatchG HIGH LOW sHigh := by
  decide

/-- C1 (amended). Single-channel 'G': under the outer guard `isPlateIn`
(plate sensor LOW) the dispatcher invokes OpenDoor (pins 4 and 5 driven
LOW) and then, if `isDoorClosed` — not `isPlateIn` — per the same
pre-action snapshot, invokes ExtendPlate (pins 6 and 7 driven LOW); if the
outer guard fails (plate sensor HIGH) no pin is written and the machine
state is untouched. -/
theorem C1_takeoff_G_guards (s : SStation) (door : Bool) :
    (stationDispatch 'G' door HIGH s).m = s.m ∧
    (stationDispatch 'G' HIGH LOW s).m.pins.pin4 = LOW ∧
    (stationDispatch 'G' HIGH LOW s).m.pins.pin5 = LOW ∧
    (stationDispatch 'G' HIGH LOW s).m.pins.pin6 = s.m.pins.pin6 ∧
    (stationDispatch 'G' HIGH LOW s).m.pins.pin7 = s.m.pins.pin7 ∧
    (stationDispatch 'G' LOW LOW s).m.pins.pin4 = LOW ∧
    (stationDispatch 'G' LOW LOW s).m.pins.pin5 = LOW ∧
    (stationDispatch 'G' LOW LOW s).m.pins.pin6 = LOW ∧
    (stationDispatch 'G' LOW LOW s).m.pins.pin7 = LOW := by
  refine ⟨?_, ?_, ?_, ?_, ?_, ?_, ?_, ?_, ?_⟩ <;>
    simp [stationDispatch, OpenDoor, ExtendPlate, digitalWrite, setPin,
      HIGH, LOW, DOOR_DIRECTION_PIN, DOOR_ENABLE_PIN, PLATE_DIRECTION_PIN,
      PLATE_ENABLE_PIN]

/-- The ROS dispatch never writes the "New client connected" line and never
touches the `alreadyConnected` flag. -/
theorem rosDispatch_connection_frame (c : Char) (t : Station) :
    (rosDispatch c t).serialLog.count "New client connected" =
      t.serialLog.count "New client connected" ∧
    (rosDispatch c t).alreadyConnected = t.alreadyConnected := by
  unfold rosDispatch
  split_ifs <;> simp [List.count_append]

/-- The web dispatch never writes the "New client connected" line and never
touches the `alreadyConnected` flag. -/
theorem webDispatch_connection_frame (c : Char) (t : Station) :
    (webDispatch c t).serialLog.count "New client connected" =
      t.serialLog.count "New client connected" ∧
    (webDispatch c t).alreadyConnected = t.alreadyConnected := by
  unfold webDispatch
  split_ifs <;> simp [List.count_append]

/-- The relay re-drive touches neither the serial log nor the
`alreadyConnected` flag. -/
theorem relayStep_connection_frame (t : Station) :
    (relayStep t).serialLog = t.serialLog ∧
    (relayStep t).alreadyConnected = t.alreadyConnected := by
  unfold relayStep
  split_ifs <;> simp [EnableWirelessPower, DisableWirelessPower, digitalWrite]

/-- The first-connection bookkeeping always leaves the flag set, and
appends the log line exactly when the flag was not yet set. -/
theorem connectStep_behavior (t : Station) :
    (connectStep t).alreadyConnected = true ∧
    (connectStep t).serialLog.count "New client connected" =
      t.serialLog.count "New client connected" +
        (if !t.alreadyConnected then 1 else 0) := by
  by_cases h : t.alreadyConnected <;>
    simp [connectStep, h, List.count_append]

/-- C2 counterexample. Run three iterations from startup: a ROS client
connects and sends 'b', then no client is present, then a client connects
again.  After the client-less iteration the flag is still `true` — it does
not record that no client was connected in the previous iteration, because
the loop never reinitializes it — and after the third iteration the
"New client connected" line has been logged exactly once, so the second
connection was not detected as a first-connection transition. -/
theorem C2_flag_never_reset_counterexample :
    (loop false false none none
        (loop true false (some 'b') none initStation)).alreadyConnected
      = true ∧
    (loop true false (some 'b') none
        (loop false false none none
          (loop true false (some 'b') none initStation))).serialLog.count
        "New client connected" = 1 := by
  decide

/-- C2 (amended). The `alreadyConnected` flag is monotone: an iteration
leaves it at `prior OR (a client is connected now)`, so once set by the
first connection it is never reset (a disconnect does not reinitialize it),
and the "New client connected" line (with its buffer flush) is emitted
exactly on the iteration where a client is present while the flag is still
unset — i.e. only the first connection of the process lifetime is detected
as a first-connection transition. -/
theorem C2_connection_flag (rc wc : Bool) (rb wb : Option Char)
    (s : Station) :
    (loop rc wc rb wb s).alreadyConnected
      = (s.alreadyConnected || (rc || wc)) ∧
    (loop rc wc rb wb s).serialLog.count "New client connected" =
      s.serialLog.count "New client connected" +
        (if !s.alreadyConnected && (rc || wc) then 1 else 0) := by
  cases rc <;> cases wc <;> cases rb <;> cases wb <;>
    simp [loop, (relayStep_connection_frame _).1,
      (relayStep_connection_frame _).2,
      (rosDispatch_connection_frame _ _).1,
      (rosDispatch_connection_frame _ _).2,
      (webDispatch_connection_frame _ _).1,
      (webDispatch_connection_frame _ _).2,
      (connectStep_behavior _).1, (connectStep_behavior _).2]

/-- C4. For any byte outside a channel's recognized alphabet, in either
variant, the dispatch leaves the whole state unchanged except for exactly
one appended diagnostic log line: no pin is written, no flag (including
`wirelessPowerState`) changes, and no acknowledgment is sent. -/
theorem C4_unknown_command (c : Char) (s : Station) (t : SStation)
    (d p : Bool) :
    (c ∉ (['a', 'b', 'c', 'd', 'e', 'f', 'z', 'x', 'g'] : List Char) →
      rosDispatch c s =
        { s with serialLog := s.serialLog ++ ["Unknown ROS command"] }) ∧
    (c ∉ (['A', 'D', 'B', 'E', 'C', 'F', 'G', 'H', 'I'] : List Char) →
      webDispatch c s =
        { s with serialLog := s.serialLog ++ ["Unknown Web command"] }) ∧
    (c ∉ (['A', 'D', 'B', 'E', 'G', 'H', 'I'] : List Char) →
      stationDispatch c d p t =
        { t with serialLog := t.serialLog ++ ["Unknown command"] }) := by
  refine ⟨fun h => ?_, fun h => ?_, fun h => ?_⟩ <;>
    simp only [List.mem_cons, List.not_mem_nil, or_false, not_or] at h <;>
    simp [rosDispatch, webDispatch, stationDispatch, h]

/-- C4 witness: the byte '?' is outside all three alphabets; evaluating the
three dispatchers at concrete states yields exactly the single appended
diagnostic line. -/
theorem C4_unknown_command_witness :
    rosDispatch '?' initStation =
      { initStation with
          serialLog := initStation.serialLog ++ ["Unknown ROS command"] } ∧
    webDispatch '?' initStation =
      { initStation with
          serialLog := initStation.serialLog ++ ["Unknown Web command"] } ∧
    stationDispatch '?' HIGH HIGH sHigh =
      { sHigh with serialLog := sHigh.serialLog ++ ["Unknown command"] } :=
  ⟨(C4_unknown_command '?' initStation sHigh HIGH HIGH).1 (by decide),
   (C4_unknown_command '?' initStation sHigh HIGH HIGH).2.1 (by decide),
   (C4_unknown_command '?' initStation sHigh HIGH HIGH).2.2 (by decide)⟩

/-- No web command ever writes a byte back on the ROS channel. -/
theorem webDispatch_rosOut (c : Char) (t : Station) :
    (webDispatch c t).rosOut = t.rosOut := by
  unfold webDispatch
  split_ifs <;> rfl

/-- No web command ever writes a byte back on the web channel (the source
contains no web-server write call at all). -/
theorem webDispatch_webOut (c : Char) (t : Station) :
    (webDispatch c t).webOut = t.webOut := by
  unfold webDispatch
  split_ifs <;> rfl

/-- No ROS command ever writes a byte on the web channel. -/
theorem rosDispatch_webOut (c : Char) (t : Station) :
    (rosDispatch c t).webOut = t.webOut := by
  unfold rosDispatch
  split_ifs <;> rfl

/-- C7. Dual-channel variant: every recognized Channel-A (ROS) byte is
acknowledged back on the ROS channel with its uppercase equivalent — in
particular 'a' triggers ExtendPlate (plate pins 6 and 7 driven LOW) and is
acknowledged with 'A' — while Channel-B (web) commands are never
acknowledged: for every byte, the web dispatch writes nothing on either
channel, e.g. 'A' on the web channel triggers ExtendPlate with no
acknowledgment byte emitted. -/
theorem C7_acknowledgments (s : Station) (c : Char) :
    (rosDispatch 'a' s).rosOut = s.rosOut ++ ['A'] ∧
    (rosDispatch 'a' s).m.pins.pin6 = LOW ∧
    (rosDispatch 'a' s).m.pins.pin7 = LOW ∧
    (rosDispatch 'b' s).rosOut = s.rosOut ++ ['B'] ∧
    (rosDispatch 'c' s).rosOut = s.rosOut ++ ['C'] ∧
    (rosDispatch 'd' s).rosOut = s.rosOut ++ ['D'] ∧
    (rosDispatch 'e' s).rosOut = s.rosOut ++ ['E'] ∧
    (rosDispatch 'f' s).rosOut = s.rosOut ++ ['F'] ∧
    (rosDispatch 'z' s).rosOut = s.rosOut ++ ['Z'] ∧
    (rosDispatch 'x' s).rosOut = s.rosOut ++ ['X'] ∧
    (rosDispatch 'g' s).rosOut = s.rosOut ++ ['G'] ∧
    (webDispatch c s).rosOut = s.rosOut ∧
    (webDispatch c s).webOut = s.webOut ∧
    (rosDispatch c s).webOut = s.webOut ∧
    (webDispatch 'A' s).m.pins.pin6 = LOW ∧
    (webDispatch 'A' s).m.pins.pin7 = LOW := by
  refine ⟨?_, ?_, ?_, ?_, ?_, ?_, ?_, ?_, ?_, ?_, ?_,
      webDispatch_rosOut c s, webDispatch_webOut c s,
      rosDispatch_webOut c s, ?_, ?_⟩ <;>
    simp [rosDispatch, webDispatch, ExtendPlate, digitalWrite, setPin, LOW,
      PLATE_DIRECTION_PIN, PLATE_ENABLE_PIN]

/-- C10. Dual-channel variant: when both channels have a pending byte in
one iteration, the iteration is exactly the ROS dispatch followed by the
web dispatch followed by the relay re-drive — the Channel-A command is
dispatched first, so the Channel-B command's writes land last.  In
particular, whatever ROS byte `rc` did to the plate pins, a web 'D'
(RetractPlate) in the same iteration leaves the plate direction pin 6 HIGH
and plate enable pin 7 LOW at the end of the iteration. -/
theorem C10_ros_before_web (s : Station) (rc wc : Char) :
    loop true true (some rc) (some wc) s =
      relayStep (webDispatch wc (rosDispatch rc (connectStep s))) ∧
    (loop true true (some rc) (some 'D') s).m.pins.pin6 = HIGH ∧
    (loop true true (some rc) (some 'D') s).m.pins.pin7 = LOW := by
  have hcomp : loop true true (some rc) (some 'D') s =
      relayStep (webDispatch 'D' (rosDispatch rc (connectStep s))) := rfl
  have hpres :=
    relayStep_drives_pin10 (webDispatch 'D' (rosDispatch rc (connectStep s)))
  refine ⟨rfl, ?_, ?_⟩
  · rw [hcomp, hpres.2.2.2.2.1]
    simp [webDispatch, RetractPlate, digitalWrite, setPin, HIGH,
      PLATE_DIRECTION_PIN, PLATE_ENABLE_PIN]
  · rw [hcomp, hpres.2.2.2.2.2]
    simp [webDispatch, RetractPlate, digitalWrite, setPin, LOW,
      PLATE_DIRECTION_PIN, PLATE_ENABLE_PIN]
